import Mathlib

/-!
Verification of the conversational-form chatbot core
(`validators.py`, `conversational_form.py`, `tool_agents.py`, `app.py`).

The Python code is shallowly embedded:

* strings are Lean `String`s (ASCII fidelity; the repository's inputs and
  all string literals in the source are ASCII);
* `datetime.date` values are embedded as Python ordinals (`date.toordinal`,
  an `Int`, `0001-01-01 = 1`), with civil-calendar conversions for
  formatting, parsing and month arithmetic;
* Streamlit session state becomes an explicit `SessionState` record that
  every handler threads;
* calls into the third-party `dateutil` parser are parameters
  (`String → Option Int`, `none` = the parse raised), since that library is
  not part of this repository;
* a Python exception escaping a handler is `none` in the handler's result
  component, with the state component recording the mutations that were
  already performed before the raise.
-/

namespace ChatbotCore

/-! ### Python string primitives -/

/-- Python `str` whitespace (`\s` of the `re` module, ASCII range):
space, tab, newline, carriage return, vertical tab, form feed. -/
def isPySpace (c : Char) : Bool :=
  c = ' ' || c = '\t' || c = '\n' || c = '\r' || c = '\x0b' || c = '\x0c'

/-- ASCII letter, the `[a-zA-Z]` character class. -/
def isAsciiAlpha (c : Char) : Bool :=
  ('a' ≤ c && c ≤ 'z') || ('A' ≤ c && c ≤ 'Z')

/-- `str.strip()` on a character list: drop leading and trailing whitespace. -/
def stripList (l : List Char) : List Char :=
  ((l.dropWhile isPySpace).reverse.dropWhile isPySpace).reverse

/-- Python `s.strip()`. -/
def pyStrip (s : String) : String := ⟨stripList s.data⟩

/-- Python `s.lower()` (ASCII case mapping). -/
def pyLower (s : String) : String := ⟨s.data.map Char.toLower⟩

/-- One pass of Python `str.title()`: a letter that follows a cased (here:
ASCII-alphabetic) character is lowercased, any other letter is uppercased;
non-letters pass through and reset the word. -/
def titleGo : Bool → List Char → List Char
  | _, [] => []
  | prevCased, c :: rest =>
      if isAsciiAlpha c then
        (if prevCased then c.toLower else c.toUpper) :: titleGo true rest
      else
        c :: titleGo false rest

/-- Python `s.title()`. -/
def pyTitle (s : String) : String := ⟨titleGo false s.data⟩

/-- Python substring test `needle in hay` on character lists. -/
def pyInList (needle : List Char) : List Char → Bool
  | [] => needle.isEmpty
  | c :: rest => needle.isPrefixOf (c :: rest) || pyInList needle rest

/-- Python substring test `needle in hay`. -/
def pyIn (needle hay : String) : Bool := pyInList needle.data hay.data

/-! ### Calendar arithmetic (`datetime.date` as a Python ordinal)

Python's proleptic-Gregorian ordinal: `date(1, 1, 1).toordinal() = 1`.
Conversions use the standard civil-calendar algorithms with floor
division (`Int.fdiv`). -/

/-- Gregorian leap year. -/
def isLeap (y : Int) : Bool :=
  y.emod 4 = 0 && (y.emod 100 ≠ 0 || y.emod 400 = 0)

/-- Number of days in month `m` of year `y`. -/
def monthLength (y m : Int) : Int :=
  if m = 2 then (if isLeap y then 29 else 28)
  else if m = 4 || m = 6 || m = 9 || m = 11 then 30
  else 31

/-- Python `date(y, m, d).toordinal()` (days-from-civil, shifted so that
`0001-01-01 ↦ 1`). -/
def toOrdinal (y m d : Int) : Int :=
  let y' := if m ≤ 2 then y - 1 else y
  let era := (if 0 ≤ y' then y' else y' - 399).fdiv 400
  let yoe := y' - era * 400
  let doy := (153 * (if 2 < m then m - 3 else m + 9) + 2).fdiv 5 + d - 1
  let doe := yoe * 365 + yoe.fdiv 4 - yoe.fdiv 100 + doy
  era * 146097 + doe - 719468 + 719163

/-- Inverse of `toOrdinal`: the `(year, month, day)` of a Python ordinal
(civil-from-days). -/
def fromOrdinal (o : Int) : Int × Int × Int :=
  let z := o - 719163 + 719468
  let era := (if 0 ≤ z then z else z - 146096).fdiv 146097
  let doe := z - era * 146097
  let yoe := (doe - doe.fdiv 1460 + doe.fdiv 36524 - doe.fdiv 146096).fdiv 365
  let y := yoe + era * 400
  let doy := doe - (365 * yoe + yoe.fdiv 4 - yoe.fdiv 100)
  let mp := (5 * doy + 2).fdiv 153
  let d := doy - (153 * mp + 2).fdiv 5 + 1
  let m := if mp < 10 then mp + 3 else mp - 9
  (if m ≤ 2 then y + 1 else y, m, d)

/-- Python `date.weekday()`: Monday = 0 … Sunday = 6.
Ordinal 1 (`0001-01-01`) is a Monday. -/
def pyWeekday (o : Int) : Int := (o - 1).emod 7

/-- `dateutil.relativedelta(months=k)` applied to a date: advance the month,
clamping the day-of-month to the target month's length. -/
def addMonths (o : Int) (k : Int) : Int :=
  let ymd := fromOrdinal o
  let y := ymd.1
  let m := ymd.2.1
  let d := ymd.2.2
  let total := y * 12 + (m - 1) + k
  let y2 := total.fdiv 12
  let m2 := total.emod 12 + 1
  toOrdinal y2 m2 (min d (monthLength y2 m2))

/-- Decimal rendering of a nonnegative `Int`, zero-padded to width `w`
(the behaviour of `strftime` numeric fields). -/
def padNum (w : Nat) (n : Int) : String :=
  let s := toString n.toNat
  ⟨List.replicate (w - s.length) '0' ++ s.data⟩

/-- `date.strftime("%Y-%m-%d")`. -/
def formatISO (o : Int) : String :=
  let ymd := fromOrdinal o
  padNum 4 ymd.1 ++ "-" ++ padNum 2 ymd.2.1 ++ "-" ++ padNum 2 ymd.2.2

/-- `%A` weekday names, indexed by `pyWeekday`. -/
def weekdayNames : List String :=
  ["Monday", "Tuesday", "Wednesday", "Thursday", "Friday", "Saturday", "Sunday"]

/-- `%B` month names, index 0 = January. -/
def monthNames : List String :=
  ["January", "February", "March", "April", "May", "June", "July",
   "August", "September", "October", "November", "December"]

/-- `date.strftime("%A, %B %d, %Y")` (the "formatted date" shown to users). -/
def formatLong (o : Int) : String :=
  let ymd := fromOrdinal o
  (weekdayNames.getD (pyWeekday o).toNat "") ++ ", " ++
    (monthNames.getD (ymd.2.1 - 1).toNat "") ++ " " ++
    padNum 2 ymd.2.2 ++ ", " ++ padNum 4 ymd.1

/-- Python `str.split(sep)` for a single-character separator. -/
def splitChar (sep : Char) : List Char → List (List Char)
  | [] => [[]]
  | c :: rest =>
      if c = sep then [] :: splitChar sep rest
      else
        match splitChar sep rest with
        | h :: t => (c :: h) :: t
        | [] => [[c]]

/-- Decimal value of a digit string. -/
def digitsToNat (l : List Char) : Nat :=
  l.foldl (fun n c => n * 10 + (c.toNat - '0'.toNat)) 0

/-- `datetime.strptime(s, "%Y-%m-%d")` followed by taking the date:
`%Y` is exactly four digits, `%m` and `%d` one or two digits, the whole
string must be consumed, and the components must form a real calendar
date (otherwise `ValueError`, i.e. `none`). -/
def parseISO (s : String) : Option Int :=
  match splitChar '-' s.data with
  | [ys, ms, ds] =>
      if ys.length = 4 && ys.all Char.isDigit &&
         0 < ms.length && ms.length ≤ 2 && ms.all Char.isDigit &&
         0 < ds.length && ds.length ≤ 2 && ds.all Char.isDigit then
        let y : Int := (digitsToNat ys : Int)
        let m : Int := (digitsToNat ms : Int)
        let d : Int := (digitsToNat ds : Int)
        if 1 ≤ y && y ≤ 9999 && 1 ≤ m && m ≤ 12 && 1 ≤ d &&
           d ≤ monthLength y m then
          some (toOrdinal y m d)
        else none
      else none
  | _ => none

end ChatbotCore

namespace ChatbotCore

/-! ### `validators.py` — `FormValidator` -/

/-- `FormValidator.validate_name`: at least two characters after stripping,
and the stripped name must match `^[a-zA-Z\s]+$`. -/
def validate_name (name : String) : Bool × String :=
  if name.data.isEmpty || (pyStrip name).length < 2 then
    (false, "Name must be at least 2 characters long")
  else if !(!(pyStrip name).data.isEmpty &&
            (pyStrip name).data.all (fun c => isAsciiAlpha c || isPySpace c)) then
    (false, "Name should only contain letters and spaces")
  else (true, "Valid name")

/-- The characters deleted by `re.sub(r'[\s\-\(\)\.]+', '', ...)` in
`validate_phone`. -/
def isPhoneSep (c : Char) : Bool :=
  isPySpace c || c = '-' || c = '(' || c = ')' || c = '.'

/-- The cleaned digit string of `validate_phone`:
`re.sub(r'[\s\-\(\)\.]+', '', phone.strip())`. -/
def cleanPhone (phone : String) : List Char :=
  (stripList phone.data).filter (fun c => !isPhoneSep c)

/-- Python `str.isdigit()` (ASCII): nonempty and all digits. -/
def pyIsDigit (l : List Char) : Bool := !l.isEmpty && l.all Char.isDigit

/-- `FormValidator.validate_phone`: the cleaned string must be all digits and
at least ten long; the success message embeds the cleaned digits. -/
def validate_phone (phone : String) : Bool × String :=
  let cleaned := cleanPhone phone
  if pyIsDigit cleaned && 10 ≤ cleaned.length then
    (true, "Valid phone number: " ++ String.mk cleaned)
  else
    (false, "Invalid phone number")

/-- The local-part character class `[a-zA-Z0-9._%+-]` of the email regex. -/
def isLocalChar (c : Char) : Bool :=
  isAsciiAlpha c || c.isDigit || c = '.' || c = '_' || c = '%' || c = '+' || c = '-'

/-- The domain character class `[a-zA-Z0-9.-]` of the email regex. -/
def isDomainChar (c : Char) : Bool :=
  isAsciiAlpha c || c.isDigit || c = '.' || c = '-'

/-- Matches `[a-zA-Z0-9.-]+\.[a-zA-Z]{2,}$` against `pre.reverse ++ rest`:
every `'.'` of the input is tried as the `\.` of the pattern (`pre` holds the
characters already passed over, reversed), exactly the backtracking the regex
engine performs. -/
def emailDomainTld : List Char → List Char → Bool
  | _, [] => false
  | pre, '.' :: t =>
      (!pre.isEmpty && pre.all isDomainChar &&
        2 ≤ t.length && t.all isAsciiAlpha) ||
      emailDomainTld ('.' :: pre) t
  | pre, c :: t => emailDomainTld (c :: pre) t

/-- `re.match(r'^[a-zA-Z0-9._%+-]+@[a-zA-Z0-9.-]+\.[a-zA-Z]{2,}$', e)` as a
boolean.  `@` occurs in neither character class, so a match forces the split
at the first `@`: a nonempty local part entirely in the local class, the `@`,
then a domain accepted by `emailDomainTld`. -/
def emailRegexOk (l : List Char) : Bool :=
  let localPart := l.takeWhile isLocalChar
  match l.drop localPart.length with
  | '@' :: dom => !localPart.isEmpty && emailDomainTld [] dom
  | _ => false

/-- `FormValidator.validate_email`. -/
def validate_email (email : String) : Bool × String :=
  if emailRegexOk (pyStrip email).data then (true, "Valid email")
  else (false, "Invalid email: does not match email format")

/-! ### `validators.py` — `DateExtractor` -/

/-- One token of the explicit date regexes: a literal character, an exact
digit run `\d{n}`, or the greedy `\d{1,2}`. -/
inductive PatTok where
  | lit : Char → PatTok
  | dexact : Nat → PatTok
  | dTwoOrOne : PatTok

/-- Match a date pattern at the head of the input, returning the consumed
characters (`match.group()`).  `\d{1,2}` is greedy: two digits are tried
before one. -/
def matchPatAt : List PatTok → List Char → Option (List Char)
  | [], _ => some []
  | PatTok.lit c :: ts, x :: xs =>
      if x = c then (matchPatAt ts xs).map (fun g => c :: g) else none
  | PatTok.lit _ :: _, [] => none
  | PatTok.dexact n :: ts, xs =>
      let pre := xs.take n
      if pre.length = n && pre.all Char.isDigit then
        (matchPatAt ts (xs.drop n)).map (fun g => pre ++ g)
      else none
  | PatTok.dTwoOrOne :: ts, xs =>
      match (let pre := xs.take 2
             if pre.length = 2 && pre.all Char.isDigit then
               (matchPatAt ts (xs.drop 2)).map (fun g => pre ++ g)
             else none) with
      | some g => some g
      | none =>
          match xs with
          | x :: xs' =>
              if x.isDigit then (matchPatAt ts xs').map (fun g => [x] ++ g)
              else none
          | [] => none

/-- `re.search` for a date pattern: try every start position left to right
and return the first `match.group()`. -/
def searchPat (p : List PatTok) : List Char → Option (List Char)
  | [] => matchPatAt p []
  | c :: rest =>
      match matchPatAt p (c :: rest) with
      | some g => some g
      | none => searchPat p rest

/-- The `date_patterns` list of `DateExtractor.extract_date`:
`\d{4}-\d{2}-\d{2}`, `\d{2}/\d{2}/\d{4}`, `\d{2}-\d{2}-\d{4}`,
`\d{1,2}/\d{1,2}/\d{4}`. -/
def date_patterns : List (List PatTok) :=
  [ [.dexact 4, .lit '-', .dexact 2, .lit '-', .dexact 2],
    [.dexact 2, .lit '/', .dexact 2, .lit '/', .dexact 4],
    [.dexact 2, .lit '-', .dexact 2, .lit '-', .dexact 4],
    [.dTwoOrOne, .lit '/', .dTwoOrOne, .lit '/', .dexact 4] ]

/-- The pattern loop of `extract_date`: for each pattern in order, search;
on a match, `dateutil.parser.parse(match.group())` — a parse failure
(`except: continue`) moves to the next pattern. -/
def tryDatePatterns (dparse : String → Option Int) :
    List (List PatTok) → List Char → Option String
  | [], _ => none
  | p :: ps, text =>
      match searchPat p text with
      | some g =>
          match dparse (String.mk g) with
          | some o => some (formatISO o)
          | none => tryDatePatterns dparse ps text
      | none => tryDatePatterns dparse ps text

/-- The `weekdays` dict of `extract_date`, in insertion order. -/
def weekdays : List (String × Int) :=
  [("monday", 0), ("tuesday", 1), ("wednesday", 2), ("thursday", 3),
   ("friday", 4), ("saturday", 5), ("sunday", 6)]

/-- `DateExtractor.extract_date`.  `today` is `datetime.now().date()` as a
Python ordinal; `dparse` and `dfuzzy` stand for `dateutil.parser.parse`
without and with `fuzzy=True` (third-party collaborators outside this
repository; `none` means the call raised). -/
def extract_date (today : Int) (dparse dfuzzy : String → Option Int)
    (text : String) : Option String :=
  let t := pyStrip (pyLower text)
  if pyIn "today" t then some (formatISO today)
  else if pyIn "tomorrow" t then some (formatISO (today + 1))
  else if pyIn "yesterday" t then some (formatISO (today - 1))
  else if pyIn "next week" t then some (formatISO (today + 7))
  else if pyIn "next month" t then some (formatISO (addMonths today 1))
  else
    match weekdays.find? (fun p => pyIn p.1 t) with
    | some p =>
        let daysAhead := p.2 - pyWeekday today
        let daysAhead :=
          if pyIn "next" t || daysAhead ≤ 0 then daysAhead + 7 else daysAhead
        some (formatISO (today + daysAhead))
    | none =>
        match tryDatePatterns dparse date_patterns t.data with
        | some r => some r
        | none =>
            match dfuzzy t with
            | some o => some (formatISO o)
            | none => none

end ChatbotCore
namespace ChatbotCore

/-! ### `tool_agents.py` / `chatbot.py` / `app.py` — intent routing -/

/-- Regex word character (`\w`, ASCII): letter, digit or underscore. -/
def isWordChar (c : Char) : Bool := isAsciiAlpha c || c.isDigit || c = '_'

/-- `\b` between the character before the current position (`none` at the
string border) and the rest of the input: exactly one side is a word
character. -/
def atWordBoundary (prev : Option Char) (s : List Char) : Bool :=
  (match prev with | none => false | some c => isWordChar c) !=
  (match s with | [] => false | c :: _ => isWordChar c)

/-- Tokens of the appointment regexes: an alternation of literal strings
(`(x|y|z)`; an empty literal in the list encodes `(...)?` over literals),
`\s+`, `\s*`, `\b`, and an optional token sub-sequence `(...)?`. -/
inductive RTok where
  | alts : List (List Char) → RTok
  | ws1 : RTok
  | ws0 : RTok
  | wb : RTok
  | optseq : List RTok → RTok

mutual

/-- Termination weight of one regex token. -/
def rtokWt : RTok → Nat
  | .alts ls => 1 + ls.length
  | .optseq l => 1 + rtokListWt l
  | _ => 1

/-- Termination weight of a token sequence. -/
def rtokListWt : List RTok → Nat
  | [] => 0
  | t :: ts => rtokWt t + rtokListWt ts

end

/-- Backtracking matcher for a token sequence anchored at the current
position; `prev` is the character just before that position (for `\b`).
Alternatives are tried in order, `\s+`/`\s*` try every possible consumption
— exactly the language the regex engine accepts.  The `fuel` argument makes
the recursion structural (so the definition evaluates inside the kernel);
every recursive call strictly decreases `rtokListWt ts + s.length`, so with
the initial fuel of `matchRToks` the `fuel = 0` fallback is unreachable. -/
def matchRToksF : Nat → List RTok → Option Char → List Char → Bool
  | _, [], _, _ => true
  | 0, _ :: _, _, _ => false
  | fuel + 1, .wb :: ts, prev, s =>
      atWordBoundary prev s && matchRToksF fuel ts prev s
  | _ + 1, .alts [] :: _, _, _ => false
  | fuel + 1, .alts (l :: ls) :: ts, prev, s =>
      (if l.isPrefixOf s then
         matchRToksF fuel ts
           (match l.getLast? with | some c => some c | none => prev)
           (s.drop l.length)
       else false) ||
      matchRToksF fuel (.alts ls :: ts) prev s
  | _ + 1, .ws1 :: _, _, [] => false
  | fuel + 1, .ws1 :: ts, _, c :: rest =>
      if isPySpace c then
        matchRToksF fuel ts (some c) rest ||
        matchRToksF fuel (.ws1 :: ts) (some c) rest
      else false
  | fuel + 1, .ws0 :: ts, prev, s =>
      matchRToksF fuel ts prev s ||
      (match s with
       | c :: rest =>
           if isPySpace c then matchRToksF fuel (.ws0 :: ts) (some c) rest
           else false
       | [] => false)
  | fuel + 1, .optseq inner :: ts, prev, s =>
      matchRToksF fuel (inner ++ ts) prev s || matchRToksF fuel ts prev s

/-- Anchored match of a token sequence (fuel instantiated). -/
def matchRToks (ts : List RTok) (prev : Option Char) (s : List Char) : Bool :=
  matchRToksF (rtokListWt ts + s.length + 1) ts prev s

/-- `re.search` for the appointment patterns: try a match at every start
position, tracking the previous character for `\b`. -/
def searchR (p : List RTok) : Option Char → List Char → Bool
  | prev, [] => matchRToks p prev []
  | prev, c :: rest => matchRToks p prev (c :: rest) || searchR p (some c) rest

/-- The `appointment_triggers` keyword list of `ToolAgents.should_use_agent`
(identical to `call_keywords` of `ChatBot.detect_call_request`). -/
def appointment_triggers : List String :=
  ["call me", "call back", "schedule call", "book appointment",
   "appointment", "meeting", "talk to someone", "speak with",
   "contact me", "get in touch", "schedule meeting"]

/-- `\b(can you|could you|please)\s+(call|contact)\s+me\b` -/
def appointmentPat1 : List RTok :=
  [.wb, .alts ["can you".data, "could you".data, "please".data], .ws1,
   .alts ["call".data, "contact".data], .ws1, .alts ["me".data], .wb]

/-- `\b(schedule|book)\s+(a|an)?\s*(call|appointment|meeting)\b` -/
def appointmentPat2 : List RTok :=
  [.wb, .alts ["schedule".data, "book".data], .ws1,
   .alts ["a".data, "an".data, []], .ws0,
   .alts ["call".data, "appointment".data, "meeting".data], .wb]

/-- `\bi\s*(want|need|would like)\s+(to\s+)?(schedule|book)\b` -/
def appointmentPat3 : List RTok :=
  [.wb, .alts ["i".data], .ws0,
   .alts ["want".data, "need".data, "would like".data], .ws1,
   .optseq [.alts ["to".data], .ws1],
   .alts ["schedule".data, "book".data], .wb]

/-- The `appointment_patterns` regex list of `ToolAgents.should_use_agent`. -/
def appointment_patterns : List (List RTok) :=
  [appointmentPat1, appointmentPat2, appointmentPat3]

/-- `ToolAgents.should_use_agent`, with the form-active flag
(`ConversationalForm.is_form_active()`) passed explicitly: an active form
always captures the message; otherwise keyword triggers, then the regex
patterns, are tried on the lowercased stripped input. -/
def should_use_agent (form_active : Bool) (user_input : String) : Bool :=
  if form_active then true
  else
    let low := pyStrip (pyLower user_input)
    if appointment_triggers.any (fun trig => pyIn trig low) then true
    else if appointment_patterns.any (fun p => searchR p none low.data) then true
    else false

/-- `ChatBot.detect_call_request`: keyword scan on the lowercased message. -/
def detect_call_request (message : String) : Bool :=
  appointment_triggers.any (fun k => pyIn k (pyLower message))

/-- The two destinations of the per-message dispatch. -/
inductive Route where
  | FORM
  | QA
deriving DecidableEq

/-- The dispatch of `app.py` (`process_user_input`): the message goes to the
form/agent path when `should_use_agent` fires or a form is active, otherwise
to the document-QA path. -/
def route (message : String) (form_active : Bool) : Route :=
  if should_use_agent form_active message || form_active then Route.FORM
  else Route.QA

end ChatbotCore
namespace ChatbotCore

/-! ### `conversational_form.py` — `ConversationalForm`

Streamlit's `st.session_state` becomes the explicit `SessionState` record.
A fresh session has no `form_step` key and `get_current_step` defaults it to
`"name"`; every code path that touches the form sets the key, so we model
the key as always present, with `none` standing for Python `None` (the value
stored on completion).  Each handler returns the updated state paired with
`some` result dictionary, or `none` when the Python code would raise
(a `KeyError` on a missing `form_data` key while rendering a reply); the
state component still records the mutations performed before the raise. -/

/-- The `st.session_state.form_data` dict: only these five keys are ever
written. -/
structure FormData where
  name : Option String := none
  email : Option String := none
  phone : Option String := none
  date : Option String := none
  formatted_date : Option String := none
deriving DecidableEq

/-- A record of `st.session_state.completed_forms`:
`{**form_data, "timestamp": datetime.now().isoformat()}`. -/
structure CompletedForm where
  data : FormData
  timestamp : String
deriving DecidableEq

/-- The session state visible to the form engine. -/
structure SessionState where
  form_step : Option String
  form_data : FormData
  collecting_form : Bool
  completed_forms : List CompletedForm
deriving DecidableEq

/-- A handler's returned dict:
`{"response": …, "form_completed": …, "needs_input": …}`. -/
structure FormResult where
  response : String
  form_completed : Bool
  needs_input : Bool
deriving DecidableEq

/-- The fixed `form_steps` sequence. -/
def form_steps : List String := ["name", "email", "phone", "date", "confirmation"]

/-- `ConversationalForm.is_form_active`. -/
def is_form_active (s : SessionState) : Bool := s.collecting_form

/-- `ConversationalForm._process_name`. -/
def process_name (s : SessionState) (user_input : String) :
    SessionState × Option FormResult :=
  if (validate_name user_input).1 then
    let nm := pyTitle (pyStrip user_input)
    ({ s with form_data := { s.form_data with name := some nm },
              form_step := some "email" },
     some { response := "Great! Nice to meet you, " ++ nm ++
              ". Now, could you please provide your email address?",
            form_completed := false, needs_input := true })
  else
    (s, some { response := (validate_name user_input).2 ++
                 ". Please provide your full name.",
               form_completed := false, needs_input := true })

/-- `ConversationalForm._process_email`. -/
def process_email (s : SessionState) (user_input : String) :
    SessionState × Option FormResult :=
  if (validate_email user_input).1 then
    ({ s with form_data := { s.form_data with
                               email := some (pyLower (pyStrip user_input)) },
              form_step := some "phone" },
     some { response := "Perfect! Now, please share your phone number so we can reach you.",
            form_completed := false, needs_input := true })
  else
    (s, some { response := (validate_email user_input).2 ++
                 ". Please provide a valid email address.",
               form_completed := false, needs_input := true })

/-- Python `message.split(": ")`: left-to-right non-overlapping split on the
two-character separator. -/
def splitColonSpace : List Char → List (List Char)
  | ':' :: ' ' :: rest => [] :: splitColonSpace rest
  | c :: rest =>
      match splitColonSpace rest with
      | h :: t => (c :: h) :: t
      | [] => [[c]]
  | [] => [[]]

/-- The phone value stored by `_process_phone`:
`message.split(": ")[-1] if ": " in message else user_input`
(`": " in message` iff the split has more than one part). -/
def storedPhone (message user_input : String) : String :=
  let parts := splitColonSpace message.data
  if 1 < parts.length then String.mk (parts.getLastD []) else user_input

/-- `ConversationalForm._process_phone`. -/
def process_phone (s : SessionState) (user_input : String) :
    SessionState × Option FormResult :=
  if (validate_phone user_input).1 then
    ({ s with form_data := { s.form_data with
                phone := some (storedPhone (validate_phone user_input).2 user_input) },
              form_step := some "date" },
     some { response := "Great! When would you like us to call you? You can say something like 'tomorrow', 'next Monday', or provide a specific date.",
            form_completed := false, needs_input := true })
  else
    (s, some { response := (validate_phone user_input).2 ++
                 ". Please provide a valid phone number.",
               form_completed := false, needs_input := true })

/-- The confirmation summary shown after a successful date
(the f-string of `_process_date`, whitespace condensed). -/
def confirmSummary (nm em ph fd : String) : String :=
  "Perfect! Let me confirm your information:\n\n📝 **Contact Information:**\n• **Name:** " ++
    nm ++ "\n• **Email:** " ++ em ++ "\n• **Phone:** " ++ ph ++
    "\n• **Preferred Call Date:** " ++ fd ++
    "\n\nIs this information correct? Please reply with 'yes' to confirm or 'no' to make changes."

/-- The re-prompt of `_process_date` when no date could be extracted. -/
def dateFailReply : FormResult :=
  { response := "I couldn't understand that date. Please try again with something like 'tomorrow', 'next Monday', or a specific date like '2024-01-15'.",
    form_completed := false, needs_input := true }

/-- `ConversationalForm._process_date`.  On an extracted date the stored
writes happen first; the confirmation summary then reads `form_data['name']`,
`['email']`, `['phone']` — a missing key raises `KeyError` inside the `try`,
so the bare `except` swallows it and the generic failure reply is returned
with the writes already applied. -/
def process_date (today : Int) (dparse dfuzzy : String → Option Int)
    (s : SessionState) (user_input : String) :
    SessionState × Option FormResult :=
  match extract_date today dparse dfuzzy user_input with
  | some extracted =>
      match parseISO extracted with
      | some d =>
          let fd := formatLong d
          let s' := { s with
            form_data := { s.form_data with date := some extracted,
                                            formatted_date := some fd },
            form_step := some "confirmation" }
          match s.form_data.name, s.form_data.email, s.form_data.phone with
          | some nm, some em, some ph =>
              (s', some { response := confirmSummary nm em ph fd,
                          form_completed := false, needs_input := true })
          | _, _, _ => (s', some dateFailReply)
      | none => (s, some dateFailReply)
  | none => (s, some dateFailReply)

/-- The affirmative tokens of `_process_confirmation`
(`any(word in user_input_lower for word in …)`). -/
def affirmWords : List String := ["yes", "correct", "confirm", "y"]

/-- The negative tokens of `_process_confirmation`. -/
def negWords : List String := ["no", "incorrect", "wrong", "n"]

/-- Affirmative check of `_process_confirmation`: some affirmative token is a
substring of `user_input.lower().strip()`. -/
def hasAffirm (user_input : String) : Bool :=
  affirmWords.any (fun w => pyIn w (pyStrip (pyLower user_input)))

/-- Negative check of `_process_confirmation`. -/
def hasNeg (user_input : String) : Bool :=
  negWords.any (fun w => pyIn w (pyStrip (pyLower user_input)))

/-- The success reply of `_process_confirmation` (f-string condensed). -/
def successReply (nm em ph fd : String) : String :=
  "✅ **Appointment Request Confirmed!**\n\nThank you, " ++ nm ++
    "! We have successfully recorded your information:\n\n• **Name:** " ++ nm ++
    "\n• **Email:** " ++ em ++ "\n• **Phone:** " ++ ph ++
    "\n• **Preferred Date:** " ++ fd ++
    "\n\nSomeone from our team will contact you at " ++ ph ++
    " on or before " ++ fd ++
    " to schedule your call.\n\nYou should also receive a confirmation email at " ++
    em ++ " shortly.\n\nIs there anything else I can help you with today?"

/-- `ConversationalForm._process_confirmation`.  `now` is
`datetime.now().isoformat()`.  On an affirmative token the appointment is
appended and the form state cleaned up *before* the reply is rendered; the
reply reads `form_data['name']`, `['email']`, `['phone']`,
`['formatted_date']` from the pre-cleanup dict, so a missing key raises
(`none`) with the append and cleanup already performed. -/
def process_confirmation (now : String) (s : SessionState) (user_input : String) :
    SessionState × Option FormResult :=
  if hasAffirm user_input then
    let s' := { s with
      completed_forms := s.completed_forms ++ [⟨s.form_data, now⟩],
      form_step := none,
      form_data := {},
      collecting_form := false }
    match s.form_data.name, s.form_data.email, s.form_data.phone,
          s.form_data.formatted_date with
    | some nm, some em, some ph, some fd =>
        (s', some { response := successReply nm em ph fd,
                    form_completed := true, needs_input := false })
    | _, _, _, _ => (s', none)
  else if hasNeg user_input then
    ({ s with form_step := some "name", form_data := {} },
     some { response := "No problem! Let's start over. Please provide your full name.",
            form_completed := false, needs_input := true })
  else
    (s, some { response := "Please reply with 'yes' to confirm the information is correct, or 'no' if you'd like to make changes.",
               form_completed := false, needs_input := true })

/-- `ConversationalForm._handle_unknown_step`: defensive reset. -/
def handle_unknown_step (s : SessionState) : SessionState × Option FormResult :=
  ({ s with form_step := some "name", form_data := {} },
   some { response := "Let's start collecting your information. Please provide your full name.",
          form_completed := false, needs_input := true })

/-- `ConversationalForm.process_form_input`: dispatch on
`get_current_step()`. -/
def process_form_input (today : Int) (dparse dfuzzy : String → Option Int)
    (now : String) (s : SessionState) (user_input : String) :
    SessionState × Option FormResult :=
  if s.form_step = some "name" then process_name s user_input
  else if s.form_step = some "email" then process_email s user_input
  else if s.form_step = some "phone" then process_phone s user_input
  else if s.form_step = some "date" then
    process_date today dparse dfuzzy s user_input
  else if s.form_step = some "confirmation" then
    process_confirmation now s user_input
  else handle_unknown_step s

/-- `ConversationalForm.initialize_form`. -/
def initialize_form (s : SessionState) : SessionState × FormResult :=
  ({ s with collecting_form := true, form_step := some "name", form_data := {} },
   { response := "I'd be happy to help you schedule a call! Let me collect some information. First, could you please tell me your full name?",
     form_completed := false, needs_input := true })

end ChatbotCore
namespace ChatbotCore

/-! ### Helper lemmas -/

theorem mem_dropWhile {p : Char → Bool} {c : Char} {l : List Char}
    (hc : p c = false) (h : c ∈ l) : c ∈ l.dropWhile p := by
  induction l with
  | nil => cases h
  | cons x xs ih =>
      rw [List.dropWhile_cons]
      by_cases hx : p x = true
      · simp only [hx, if_true]
        rcases List.mem_cons.mp h with rfl | hmem
        · rw [hc] at hx; cases hx
        · exact ih hmem
      · simp only [hx, if_false, Bool.not_eq_true] at *
        simpa [hx] using h

/-- A non-whitespace character of `l` survives `str.strip()`. -/
theorem mem_stripList {c : Char} {l : List Char} (hc : isPySpace c = false)
    (h : c ∈ l) : c ∈ stripList l :=
  List.mem_reverse.mpr (mem_dropWhile hc (List.mem_reverse.mpr (mem_dropWhile hc h)))

/-- A one-character needle is a Python substring iff the character occurs. -/
theorem pyInList_single {c : Char} {l : List Char} (h : c ∈ l) :
    pyInList [c] l = true := by
  induction l with
  | nil => cases h
  | cons x xs ih =>
      rcases List.mem_cons.mp h with rfl | hmem
      · simp [pyInList, List.isPrefixOf]
      · simp [pyInList, ih hmem]

end ChatbotCore

namespace ChatbotCore

/-! ### Claim C10 -/

/-- **C10** — `validate_phone` strips only whitespace, hyphens, parentheses
and dots before the all-digit check, so every input containing a `'+'`
character is rejected, regardless of digit count. -/
theorem plus_phone_always_invalid (p : String) (h : '+' ∈ p.data) :
    validate_phone p = (false, "Invalid phone number") := by
  have h1 : '+' ∈ stripList p.data := mem_stripList (by decide) h
  have h2 : '+' ∈ cleanPhone p :=
    List.mem_filter.mpr ⟨h1, by decide⟩
  have h3 : (cleanPhone p).all Char.isDigit = false := by
    cases hall : (cleanPhone p).all Char.isDigit with
    | false => rfl
    | true =>
        have := List.all_eq_true.mp hall '+' h2
        simp at this
  simp [validate_phone, pyIsDigit, h3]

/-- Witness for C10 at the international-format number `"+12345678901"`. -/
theorem plus_phone_always_invalid_witness :
    validate_phone "+12345678901" = (false, "Invalid phone number") :=
  plus_phone_always_invalid "+12345678901" (by decide)

/-! ### Claim C3 -/

/-- **C3** — the intent router is a pure function of the message and the
form-active flag: with an active form every message (so in particular
`"hello"`) routes to `FORM`; with no active form, `"please call me back"`
routes to `FORM` (keyword trigger) and `"what is this document about"`
routes to `QA` (no keyword, no pattern). -/
theorem router_cases :
    (∀ m : String, route m true = Route.FORM) ∧
    route "hello" true = Route.FORM ∧
    route "please call me back" false = Route.FORM ∧
    route "what is this document about" false = Route.QA := by
  refine ⟨fun m => ?_, ?_, ?_, ?_⟩
  · simp [route, should_use_agent]
  · simp [route, should_use_agent]
  · rfl
  · rfl

/-! ### Claim C4 -/

/-- **C4 counterexample** — with the reference date fixed at `2024-01-15`
(a Monday), `extract_date "next monday"` returns `"2024-01-22"`, the Monday
*seven* days later; the date eight days later is `2024-01-23`, so the claim's
"the Monday eight days later" does not hold. -/
theorem next_monday_not_eight_days :
    pyWeekday (toOrdinal 2024 1 15) = 0 ∧
    extract_date (toOrdinal 2024 1 15) (fun _ => none) (fun _ => none)
        "next monday" = some "2024-01-22" ∧
    formatISO (toOrdinal 2024 1 15 + 8) = "2024-01-23" ∧
    extract_date (toOrdinal 2024 1 15) (fun _ => none) (fun _ => none)
        "next monday" ≠ some (formatISO (toOrdinal 2024 1 15 + 8)) := by
  refine ⟨rfl, rfl, rfl, ?_⟩
  decide

/-- **C4 (amended)** — with the reference date fixed at `2024-01-15`
(a Monday), `extract_date "tomorrow"` returns `"2024-01-16"`, and
`extract_date "next monday"` returns `"2024-01-22"`, the Monday seven days
later (the Monday of the following week), not the same day. -/
theorem tomorrow_and_next_monday (dparse dfuzzy : String → Option Int) :
    pyWeekday (toOrdinal 2024 1 15) = 0 ∧
    extract_date (toOrdinal 2024 1 15) dparse dfuzzy "tomorrow" =
      some "2024-01-16" ∧
    extract_date (toOrdinal 2024 1 15) dparse dfuzzy "next monday" =
      some "2024-01-22" ∧
    toOrdinal 2024 1 22 = toOrdinal 2024 1 15 + 7 ∧
    pyWeekday (toOrdinal 2024 1 22) = 0 :=
  ⟨rfl, rfl, rfl, rfl, rfl⟩

end ChatbotCore
namespace ChatbotCore

/-! ### Claim C5 -/

/-- **C5** — submitting the same phone number as `"123-456-7890"`,
`"(123) 456-7890"` or `"1234567890"` at the phone step is accepted in each
case and stores the identical normalized digit string `"1234567890"`
(recovered from the validator's success message by splitting on `": "`),
advancing the step to `date`. -/
theorem phone_formats_normalize (today : Int) (dparse dfuzzy : String → Option Int)
    (now : String) (s : SessionState) (h : s.form_step = some "phone") :
    (validate_phone "123-456-7890" = (true, "Valid phone number: 1234567890") ∧
      (process_form_input today dparse dfuzzy now s "123-456-7890").1.form_data.phone =
        some "1234567890" ∧
      (process_form_input today dparse dfuzzy now s "123-456-7890").1.form_step =
        some "date") ∧
    (validate_phone "(123) 456-7890" = (true, "Valid phone number: 1234567890") ∧
      (process_form_input today dparse dfuzzy now s "(123) 456-7890").1.form_data.phone =
        some "1234567890" ∧
      (process_form_input today dparse dfuzzy now s "(123) 456-7890").1.form_step =
        some "date") ∧
    (validate_phone "1234567890" = (true, "Valid phone number: 1234567890") ∧
      (process_form_input today dparse dfuzzy now s "1234567890").1.form_data.phone =
        some "1234567890" ∧
      (process_form_input today dparse dfuzzy now s "1234567890").1.form_step =
        some "date") := by
  have v1 : validate_phone "123-456-7890" = (true, "Valid phone number: 1234567890") := by
    decide
  have v2 : validate_phone "(123) 456-7890" = (true, "Valid phone number: 1234567890") := by
    decide
  have v3 : validate_phone "1234567890" = (true, "Valid phone number: 1234567890") := by
    decide
  have sp : storedPhone "Valid phone number: 1234567890" "123-456-7890" = "1234567890" ∧
      storedPhone "Valid phone number: 1234567890" "(123) 456-7890" = "1234567890" ∧
      storedPhone "Valid phone number: 1234567890" "1234567890" = "1234567890" := by
    decide
  refine ⟨⟨v1, ?_, ?_⟩, ⟨v2, ?_, ?_⟩, ⟨v3, ?_, ?_⟩⟩ <;>
    simp [process_form_input, h, process_phone, v1, v2, v3, sp.1, sp.2.1, sp.2.2]

/-- Witness for C5 at a concrete phone-step session. -/
theorem phone_formats_normalize_witness :
    (validate_phone "123-456-7890" = (true, "Valid phone number: 1234567890") ∧
      (process_form_input 0 (fun _ => none) (fun _ => none) "t"
          ⟨some "phone", {}, true, []⟩ "123-456-7890").1.form_data.phone =
        some "1234567890" ∧
      (process_form_input 0 (fun _ => none) (fun _ => none) "t"
          ⟨some "phone", {}, true, []⟩ "123-456-7890").1.form_step =
        some "date") ∧
    (validate_phone "(123) 456-7890" = (true, "Valid phone number: 1234567890") ∧
      (process_form_input 0 (fun _ => none) (fun _ => none) "t"
          ⟨some "phone", {}, true, []⟩ "(123) 456-7890").1.form_data.phone =
        some "1234567890" ∧
      (process_form_input 0 (fun _ => none) (fun _ => none) "t"
          ⟨some "phone", {}, true, []⟩ "(123) 456-7890").1.form_step =
        some "date") ∧
    (validate_phone "1234567890" = (true, "Valid phone number: 1234567890") ∧
      (process_form_input 0 (fun _ => none) (fun _ => none) "t"
          ⟨some "phone", {}, true, []⟩ "1234567890").1.form_data.phone =
        some "1234567890" ∧
      (process_form_input 0 (fun _ => none) (fun _ => none) "t"
          ⟨some "phone", {}, true, []⟩ "1234567890").1.form_step =
        some "date") :=
  phone_formats_normalize 0 (fun _ => none) (fun _ => none) "t"
    ⟨some "phone", {}, true, []⟩ rfl

/-! ### Claim C6 -/

/-- **C6** — at the confirmation step a negative reply clears all collected
fields (the whole `form_data` dict is replaced by `{}`) and sets the step
back to `name`, restarting the sequence from scratch. -/
theorem negative_confirmation_restarts (today : Int)
    (dparse dfuzzy : String → Option Int) (now : String) (s : SessionState)
    (input : String) (h1 : s.form_step = some "confirmation")
    (h2 : hasAffirm input = false) (h3 : hasNeg input = true) :
    process_form_input today dparse dfuzzy now s input =
      ({ s with form_step := some "name", form_data := {} },
       some { response := "No problem! Let's start over. Please provide your full name.",
              form_completed := false, needs_input := true }) := by
  simp [process_form_input, h1, process_confirmation, h2, h3]

/-- Witness for C6: a fully collected form answered `"no"`. -/
theorem negative_confirmation_restarts_witness :
    process_form_input 0 (fun _ => none) (fun _ => none) "t"
        ⟨some "confirmation",
         ⟨some "John Doe", some "john@example.com", some "1234567890",
          some "2024-01-16", some "Tuesday, January 16, 2024"⟩, true, []⟩ "no" =
      (⟨some "name", {}, true, []⟩,
       some { response := "No problem! Let's start over. Please provide your full name.",
              form_completed := false, needs_input := true }) :=
  negative_confirmation_restarts 0 (fun _ => none) (fun _ => none) "t"
    ⟨some "confirmation",
     ⟨some "John Doe", some "john@example.com", some "1234567890",
      some "2024-01-16", some "Tuesday, January 16, 2024"⟩, true, []⟩ "no"
    rfl (by decide) (by decide)

/-! ### Claim C7 -/

/-- **C7** — calling `process_form_input` while `current_step` is not one of
the five known steps never fails: for every input it resets the step to
`name`, clears the collected fields and returns the restart prompt. -/
theorem unknown_step_resets (today : Int) (dparse dfuzzy : String → Option Int)
    (now : String) (s : SessionState) (input : String)
    (h : ∀ k ∈ form_steps, s.form_step ≠ some k) :
    process_form_input today dparse dfuzzy now s input =
      ({ s with form_step := some "name", form_data := {} },
       some { response := "Let's start collecting your information. Please provide your full name.",
              form_completed := false, needs_input := true }) := by
  have h1 := h "name" (by simp [form_steps])
  have h2 := h "email" (by simp [form_steps])
  have h3 := h "phone" (by simp [form_steps])
  have h4 := h "date" (by simp [form_steps])
  have h5 := h "confirmation" (by simp [form_steps])
  simp [process_form_input, h1, h2, h3, h4, h5, handle_unknown_step]

/-- Witness for C7 at the inconsistent step value `"bogus"`. -/
theorem unknown_step_resets_witness :
    process_form_input 0 (fun _ => none) (fun _ => none) "t"
        ⟨some "bogus", ⟨some "A B", none, none, none, none⟩, true, []⟩ "anything" =
      (⟨some "name", {}, true, []⟩,
       some { response := "Let's start collecting your information. Please provide your full name.",
              form_completed := false, needs_input := true }) :=
  unknown_step_resets 0 (fun _ => none) (fun _ => none) "t"
    ⟨some "bogus", ⟨some "A B", none, none, none, none⟩, true, []⟩ "anything"
    (by decide)

end ChatbotCore
namespace ChatbotCore

/-! ### Claim C8 -/

/-- Any input whose lowercased text contains the letter `y` passes the
affirmative check of `_process_confirmation` (raw substring matching with
token `'y'`). -/
theorem hasAffirm_of_y (input : String) (h : 'y' ∈ (pyLower input).data) :
    hasAffirm input = true := by
  have m1 : 'y' ∈ stripList (pyLower input).data := mem_stripList (by decide) h
  have m3 : pyIn "y" (pyStrip (pyLower input)) = true := pyInList_single m1
  simp [hasAffirm, affirmWords, m3]

/-- **C8** — at the confirmation step the affirmative check is raw substring
matching on the lowercased input and runs before the negative check: every
input containing the letter `y` anywhere completes the appointment (appends
the record, deactivates the form), even when the input also contains a
negative token. -/
theorem y_substring_confirms (today : Int) (dparse dfuzzy : String → Option Int)
    (now : String) (s : SessionState) (input : String) (nm em ph fd : String)
    (h1 : s.form_step = some "confirmation")
    (h2 : 'y' ∈ (pyLower input).data)
    (h3 : s.form_data.name = some nm) (h4 : s.form_data.email = some em)
    (h5 : s.form_data.phone = some ph) (h6 : s.form_data.formatted_date = some fd) :
    process_form_input today dparse dfuzzy now s input =
      ({ s with completed_forms := s.completed_forms ++ [⟨s.form_data, now⟩],
                form_step := none, form_data := {}, collecting_form := false },
       some { response := successReply nm em ph fd,
              form_completed := true, needs_input := false }) := by
  have ha : hasAffirm input = true := hasAffirm_of_y input h2
  simp [process_form_input, h1, process_confirmation, ha, h3, h4, h5, h6]

/-- Witness for C8 at the input `"definitely wrong"`, which contains both the
letter `y` (in "definitely") and the negative token `"wrong"`. -/
theorem y_substring_confirms_witness :
    hasNeg "definitely wrong" = true ∧
    process_form_input 0 (fun _ => none) (fun _ => none) "t"
        ⟨some "confirmation",
         ⟨some "John Doe", some "john@example.com", some "1234567890",
          some "2024-01-16", some "Tuesday, January 16, 2024"⟩, true, []⟩
        "definitely wrong" =
      (⟨none, {}, false,
        [⟨⟨some "John Doe", some "john@example.com", some "1234567890",
           some "2024-01-16", some "Tuesday, January 16, 2024"⟩, "t"⟩]⟩,
       some { response := successReply "John Doe" "john@example.com" "1234567890"
                "Tuesday, January 16, 2024",
              form_completed := true, needs_input := false }) :=
  ⟨by decide,
   y_substring_confirms 0 (fun _ => none) (fun _ => none) "t"
     ⟨some "confirmation",
      ⟨some "John Doe", some "john@example.com", some "1234567890",
       some "2024-01-16", some "Tuesday, January 16, 2024"⟩, true, []⟩
     "definitely wrong" "John Doe" "john@example.com" "1234567890"
     "Tuesday, January 16, 2024" rfl (by decide) rfl rfl rfl rfl⟩

/-! ### Claim C9 -/

/-- **C9** — the date step imposes no lower bound on the extracted date:
`"yesterday"` yields the date one day before `today`, which is stored as the
preferred callback date and advances the form to `confirmation`, even though
it is strictly before `today`. -/
theorem yesterday_accepted (today : Int) (dparse dfuzzy : String → Option Int)
    (now : String) (s : SessionState) (nm em ph : String) (d : Int)
    (h1 : s.form_step = some "date")
    (h2 : s.form_data.name = some nm) (h3 : s.form_data.email = some em)
    (h4 : s.form_data.phone = some ph)
    (h5 : parseISO (formatISO (today - 1)) = some d) :
    extract_date today dparse dfuzzy "yesterday" = some (formatISO (today - 1)) ∧
    (process_form_input today dparse dfuzzy now s "yesterday").1.form_step =
      some "confirmation" ∧
    (process_form_input today dparse dfuzzy now s "yesterday").1.form_data.date =
      some (formatISO (today - 1)) ∧
    today - 1 < today := by
  have he : extract_date today dparse dfuzzy "yesterday" =
      some (formatISO (today - 1)) := rfl
  refine ⟨he, ?_, ?_, by omega⟩ <;>
    simp [process_form_input, h1, process_date, he, h5, h2, h3, h4]

/-- Witness for C9 with `today = 2024-01-15`: the stored date is
`2024-01-14`. -/
theorem yesterday_accepted_witness :
    extract_date (toOrdinal 2024 1 15) (fun _ => none) (fun _ => none)
        "yesterday" = some (formatISO (toOrdinal 2024 1 15 - 1)) ∧
    (process_form_input (toOrdinal 2024 1 15) (fun _ => none) (fun _ => none) "t"
        ⟨some "date",
         ⟨some "John Doe", some "john@example.com", some "1234567890",
          none, none⟩, true, []⟩ "yesterday").1.form_step = some "confirmation" ∧
    (process_form_input (toOrdinal 2024 1 15) (fun _ => none) (fun _ => none) "t"
        ⟨some "date",
         ⟨some "John Doe", some "john@example.com", some "1234567890",
          none, none⟩, true, []⟩ "yesterday").1.form_data.date =
      some (formatISO (toOrdinal 2024 1 15 - 1)) ∧
    toOrdinal 2024 1 15 - 1 < toOrdinal 2024 1 15 :=
  yesterday_accepted (toOrdinal 2024 1 15) (fun _ => none) (fun _ => none) "t"
    ⟨some "date",
     ⟨some "John Doe", some "john@example.com", some "1234567890",
      none, none⟩, true, []⟩
    "John Doe" "john@example.com" "1234567890" (toOrdinal 2024 1 14)
    rfl rfl rfl rfl (by decide)

end ChatbotCore
namespace ChatbotCore

/-! ### Claim C2 -/

/-- Failure of a step's validation/extraction, per step: the validator
rejects (name, email, phone), extraction returns nothing (date), or the
reply contains neither an affirmative nor a negative token (confirmation). -/
def failsAt (today : Int) (dparse dfuzzy : String → Option Int)
    (step : String) (input : String) : Bool :=
  if step = "name" then !(validate_name input).1
  else if step = "email" then !(validate_email input).1
  else if step = "phone" then !(validate_phone input).1
  else if step = "date" then (extract_date today dparse dfuzzy input).isNone
  else if step = "confirmation" then !hasAffirm input && !hasNeg input
  else false

/-- **C2** — for every known form step and every input that fails that
step's validation/extraction, processing leaves `current_step` and the
collected `form_data` unchanged: no partial writes on failure. -/
theorem invalid_input_preserves_state (today : Int)
    (dparse dfuzzy : String → Option Int) (now : String) (s : SessionState)
    (input step : String) (h1 : s.form_step = some step)
    (h2 : step ∈ form_steps)
    (h3 : failsAt today dparse dfuzzy step input = true) :
    (process_form_input today dparse dfuzzy now s input).1.form_step =
      s.form_step ∧
    (process_form_input today dparse dfuzzy now s input).1.form_data =
      s.form_data := by
  simp only [form_steps, List.mem_cons, List.not_mem_nil, or_false] at h2
  rcases h2 with rfl | rfl | rfl | rfl | rfl
  · have h4 : (!(validate_name input).1) = true := h3
    have h5 : (validate_name input).1 = false := by simpa using h4
    simp [process_form_input, h1, process_name, h5]
  · have h4 : (!(validate_email input).1) = true := h3
    have h5 : (validate_email input).1 = false := by simpa using h4
    simp [process_form_input, h1, process_email, h5]
  · have h4 : (!(validate_phone input).1) = true := h3
    have h5 : (validate_phone input).1 = false := by simpa using h4
    simp [process_form_input, h1, process_phone, h5]
  · have h4 : (extract_date today dparse dfuzzy input).isNone = true := h3
    have h5 : extract_date today dparse dfuzzy input = none := by simpa using h4
    simp [process_form_input, h1, process_date, h5]
  · have h4 : (!hasAffirm input && !hasNeg input) = true := h3
    have h5 : hasAffirm input = false ∧ hasNeg input = false := by simpa using h4
    simp [process_form_input, h1, process_confirmation, h5.1, h5.2]

/-- Witness for C2 at the email step with the invalid input
`"not-an-email"`. -/
theorem invalid_input_preserves_state_witness :
    (process_form_input 0 (fun _ => none) (fun _ => none) "t"
        ⟨some "email", ⟨some "John Doe", none, none, none, none⟩, true, []⟩
        "not-an-email").1.form_step = some "email" ∧
    (process_form_input 0 (fun _ => none) (fun _ => none) "t"
        ⟨some "email", ⟨some "John Doe", none, none, none, none⟩, true, []⟩
        "not-an-email").1.form_data = ⟨some "John Doe", none, none, none, none⟩ :=
  invalid_input_preserves_state 0 (fun _ => none) (fun _ => none) "t"
    ⟨some "email", ⟨some "John Doe", none, none, none, none⟩, true, []⟩
    "not-an-email" "email" rfl (by decide) (by decide)

end ChatbotCore
namespace ChatbotCore

/-! ### Claim C1 -/

/-- The interaction loop: feed successive user messages to
`process_form_input`, returning the final state and the last handler
result. -/
def run_form (today : Int) (dparse dfuzzy : String → Option Int) (now : String)
    (s : SessionState) : List String → SessionState × Option FormResult
  | [] => (s, none)
  | [i] => process_form_input today dparse dfuzzy now s i
  | i :: rest =>
      run_form today dparse dfuzzy now
        (process_form_input today dparse dfuzzy now s i).1 rest

/-- **C1** — for every run of the form in which each step's input is valid
in order, an affirmative reply at the confirmation step appends exactly one
new `CompletedForm` record containing the collected name, email, phone and
date fields (plus the human-formatted date) and the timestamp, and
deactivates the form: `collecting_form = false`, the step and the collected
data cleared. -/
theorem valid_run_completes (today : Int) (dparse dfuzzy : String → Option Int)
    (now : String) (s0 : SessionState) (n e p d c ds : String) (dd : Int)
    (hn : (validate_name n).1 = true)
    (he : (validate_email e).1 = true)
    (hp : (validate_phone p).1 = true)
    (hd : extract_date today dparse dfuzzy d = some ds)
    (hds : parseISO ds = some dd)
    (hc : hasAffirm c = true) :
    run_form today dparse dfuzzy now (initialize_form s0).1 [n, e, p, d, c] =
      ({ form_step := none, form_data := {}, collecting_form := false,
         completed_forms := s0.completed_forms ++
           [⟨{ name := some (pyTitle (pyStrip n)),
               email := some (pyLower (pyStrip e)),
               phone := some (storedPhone (validate_phone p).2 p),
               date := some ds,
               formatted_date := some (formatLong dd) }, now⟩] },
       some { response := successReply (pyTitle (pyStrip n)) (pyLower (pyStrip e))
                (storedPhone (validate_phone p).2 p) (formatLong dd),
              form_completed := true, needs_input := false }) := by
  simp [run_form, initialize_form, process_form_input, process_name,
    process_email, process_phone, process_date, process_confirmation,
    hn, he, hp, hd, hds, hc]

/-- Witness for C1: a complete concrete run on `today = 2024-01-15`. -/
theorem valid_run_completes_witness :
    run_form (toOrdinal 2024 1 15) (fun _ => none) (fun _ => none)
        "2024-01-15T12:00:00"
        (initialize_form ⟨none, {}, false, []⟩).1
        ["john doe", "John.Doe@Example.COM", "(123) 456-7890", "tomorrow", "yes"] =
      ({ form_step := none, form_data := {}, collecting_form := false,
         completed_forms :=
           [⟨{ name := some "John Doe",
               email := some "john.doe@example.com",
               phone := some "1234567890",
               date := some "2024-01-16",
               formatted_date := some "Tuesday, January 16, 2024" },
             "2024-01-15T12:00:00"⟩] },
       some { response := successReply "John Doe" "john.doe@example.com"
                "1234567890" "Tuesday, January 16, 2024",
              form_completed := true, needs_input := false }) :=
  valid_run_completes (toOrdinal 2024 1 15) (fun _ => none) (fun _ => none)
    "2024-01-15T12:00:00" ⟨none, {}, false, []⟩
    "john doe" "John.Doe@Example.COM" "(123) 456-7890" "tomorrow" "yes"
    "2024-01-16" (toOrdinal 2024 1 16)
    (by decide) (by decide) (by decide) rfl (by decide) (by decide)

end ChatbotCore
namespace ChatbotCore

/-- Witness for the amended C4 theorem at concrete collaborator functions. -/
theorem tomorrow_and_next_monday_witness :
    pyWeekday (toOrdinal 2024 1 15) = 0 ∧
    extract_date (toOrdinal 2024 1 15) (fun _ => none) (fun _ => none)
        "tomorrow" = some "2024-01-16" ∧
    extract_date (toOrdinal 2024 1 15) (fun _ => none) (fun _ => none)
        "next monday" = some "2024-01-22" ∧
    toOrdinal 2024 1 22 = toOrdinal 2024 1 15 + 7 ∧
    pyWeekday (toOrdinal 2024 1 22) = 0 :=
  tomorrow_and_next_monday (fun _ => none) (fun _ => none)

end ChatbotCore
